import Mathlib

/-!
# Verification of the `TonConnect` page-script bridge

Shallow embedding of `src/extension/pageScript/TonConnect.ts`: the
page-injected bridge object that forwards connect / reconnect / method
calls over an opaque `Connector` transport and relays wallet events back
to registered listeners.

Modelling conventions:
* JS numbers used as request ids are modelled as `Nat` (the counter is
  only ever incremented by 1 from 0).
* The opaque transport (`PostMessageConnector`, not part of this
  repository) is modelled per call by a `TransportResult`: the promise
  either resolves with a response, resolves with no response
  (`undefined`), or rejects.
* A JS callback function is identified by its reference; we model
  references as `Nat` ids (`CbId`).  Registering the same function twice
  yields the same id twice in the registry, and the unsubscribe closure
  returned by `listen` captures that reference, so both unsubscribe
  closures produced for one function behave identically.
* Each async method of the class is a pure function from the instance
  state (plus the transport behaviour for its one request) to a result
  record carrying: the settled value of the returned promise
  (`Except`: `.error` = the promise rejected), the events delivered to
  listener callbacks during the call, the transport calls issued, and
  the updated instance state.  State updates made before an `await` that
  rejects persist, as in JS.
-/

namespace TonConnectBridge

/-- Identity of a JS callback function (reference equality). -/
abbrev CbId := Nat

/-- `DeviceInfo['platform']` values produced by `getPlatform`. -/
inductive DevicePlatform
  | mac
  | iphone
  | ipad
  | windows
  | linux
deriving DecidableEq, Repr

/-- One entry of `DeviceInfo.features`: either the deprecated bare name
`'SendTransaction'` or the structured `{ name: 'SendTransaction', maxMessages }`. -/
inductive Feature
  | legacySendTransaction
  | sendTransaction (maxMessages : Nat)
deriving DecidableEq, Repr

/-- The device descriptor attached to connect payloads.
`platform` is `Option` because `getPlatform` can fall through every
branch and return `undefined` (the TS `!` assertion is type-level only). -/
structure DeviceInfo where
  platform : Option DevicePlatform
  appName : String
  appVersion : String
  maxProtocolVersion : Nat
  features : List Feature
deriving DecidableEq, Repr

/-- `CONNECT_EVENT_ERROR_CODES` from `@tonconnect/protocol` (external
dependency), modelled as an abstract enumeration. -/
inductive ConnectErrorCode
  | UNKNOWN_ERROR
  | BAD_REQUEST_ERROR
  | MANIFEST_NOT_FOUND_ERROR
  | MANIFEST_CONTENT_ERROR
  | UNKNOWN_APP_ERROR
  | USER_REJECTS_ERROR
  | METHOD_NOT_SUPPORTED
deriving DecidableEq, Repr

/-- Payload of a successful connect event: reply items (opaque to the
bridge, modelled as strings) plus the `device` field the bridge
overwrites. -/
structure ConnectPayload where
  items : List String
  device : DeviceInfo
deriving DecidableEq, Repr

/-- A `WalletEvent`: connect success, connect error, or disconnect. -/
inductive WalletEvent
  | connect (id : Nat) (payload : ConnectPayload)
  | connectError (id : Nat) (code : ConnectErrorCode) (message : String)
  | disconnect (id : Nat)
deriving DecidableEq, Repr

/-- A `ConnectRequest` supplied by the page (opaque to the bridge). -/
structure ConnectRequest where
  manifestUrl : String
  items : List String
deriving DecidableEq, Repr

/-- An `AppMethodMessage` passed to `send` (params are opaque). -/
structure AppMethodMessage where
  method : String
  id : Nat
deriving DecidableEq, Repr

/-- A `WalletResponse`: success `{ result, id }` or error
`{ error: { code, message }, id }`. -/
inductive WalletResponse
  | success (id : Nat) (result : String)
  | error (id : Nat) (code : Nat) (message : String)
deriving DecidableEq, Repr

/-- Behaviour of the transport promise for one `request` call: it
resolves (possibly with no response, i.e. `undefined`) or rejects. -/
inductive TransportResult (α : Type)
  | resolve (response : Option α)
  | reject (reason : String)
deriving DecidableEq, Repr

/-- A call issued on the `Connector` transport, mirroring
`request('connect', [message, id])`, `request('reconnect', [id])`,
`request(message.method, [message])` and `request('deactivate')`. -/
inductive RequestCall
  | connect (message : ConnectRequest) (id : Nat)
  | reconnect (id : Nat)
  | app (message : AppMethodMessage)
  | deactivate
deriving DecidableEq, Repr

/-- Ambient environment read by `getPlatform` / `getDeviceInfo`:
`window.navigator.userAgent`, `window.navigator.platform`, and the
application version from `package.json`. -/
structure Env where
  userAgent : String
  navPlatform : String
  appVersion : String
deriving DecidableEq, Repr

/-- `true` when `sub` occurs somewhere in `s` (JS `/sub/.test(s)` for a
literal pattern). -/
def strIncludes (s sub : String) : Bool :=
  decide (1 < (s.splitOn sub).length)

/-- Mirror of `getPlatform()`: classify `navigator.platform` /
`navigator.userAgent` into a `DevicePlatform`, or `none` when no branch
matches. -/
def getPlatform (userAgent navPlatform : String) : Option DevicePlatform :=
  let macosPlatforms := ["macOS", "Macintosh", "MacIntel", "MacPPC", "Mac68K"]
  let windowsPlatforms := ["Win32", "Win64", "Windows", "WinCE"]
  let iphonePlatforms := ["iPhone"]
  let ipadPlatforms := ["iPad", "iPod"]
  if macosPlatforms.contains navPlatform then some .mac
  else if iphonePlatforms.contains navPlatform then some .iphone
  else if ipadPlatforms.contains navPlatform then some .ipad
  else if windowsPlatforms.contains navPlatform then some .windows
  else if strIncludes userAgent "Android" then some .linux
  else if strIncludes navPlatform "Linux" then some .linux
  else none

/-- The bridge's supported TonConnect protocol version. -/
def TONCONNECT_VERSION : Nat := 2

/-- Mirror of `getDeviceInfo()`: the freshly computed device descriptor. -/
def getDeviceInfo (env : Env) : DeviceInfo :=
  { platform := getPlatform env.userAgent env.navPlatform
    appName := "MyTonWallet"
    appVersion := env.appVersion
    maxProtocolVersion := TONCONNECT_VERSION
    features := [.legacySendTransaction, .sendTransaction 4] }

/-- Mutable state of one `TonConnect` instance: the supported protocol
version field, the request-id counter, the listener registry (in
registration order), and whether the `beforeunload` listener is
currently registered on `window`. -/
structure BridgeState where
  protocolVersion : Nat
  lastGeneratedId : Nat
  callbacks : List CbId
  hasUnloadListener : Bool
deriving DecidableEq, Repr

/-- State of a freshly constructed `TonConnect` instance. -/
def initState : BridgeState :=
  { protocolVersion := TONCONNECT_VERSION
    lastGeneratedId := 0
    callbacks := []
    hasUnloadListener := false }

/-- What a listener callback may do to the registry when invoked:
call `listen` (push a callback) or invoke an unsubscribe closure
(filter out every entry equal to the captured callback reference). -/
inductive ListenerAction
  | subscribe (c : CbId)
  | unsubscribe (c : CbId)
deriving DecidableEq, Repr

/-- Effect of one registry action on the live callback list.
`unsubscribe c` is `callbacks.filter (cb => cb !== c)`: it removes every
occurrence of `c`.  `subscribe c` is `callbacks.push(c)`. -/
def applyAction (cbs : List CbId) : ListenerAction → List CbId
  | .subscribe c => cbs ++ [c]
  | .unsubscribe c => cbs.filter (fun cb => cb ≠ c)

/-- Behaviour of listener callbacks: what registry actions callback `c`
performs when invoked with an event. -/
def Behaviour : Type := CbId → WalletEvent → List ListenerAction

/-- The dispatch loop of `emit`: `forEach` iterates the array object
captured when `emit` started; an unsubscribe during dispatch replaces
`this.callbacks` with a new filtered array, leaving the captured array
untouched.  `captured` is the remaining portion of the captured array,
`live` the current value of `this.callbacks`.  Returns the deliveries
made (callback, event) and the final live list. -/
def dispatchList (beh : Behaviour) (ev : WalletEvent) :
    List CbId → List CbId → List (CbId × WalletEvent) × List CbId
  | [], live => ([], live)
  | c :: rest, live =>
    let live2 := (beh c ev).foldl applyAction live
    let (ds, live3) := dispatchList beh ev rest live2
    ((c, ev) :: ds, live3)

/-- Result of one bridge method call: `result` is the settled state of
the returned promise (`.error` = rejected), `deliveries` the events
delivered to listener callbacks during the call, `calls` the transport
requests issued, `state` the instance state afterwards. -/
structure OpResult (α : Type) where
  result : Except String α
  deliveries : List (CbId × WalletEvent)
  calls : List RequestCall
  state : BridgeState
deriving Repr

/-- Mirror of `private emit(event)`: invoke every currently registered
callback with the event (over the captured list) and return the event. -/
def emit (beh : Behaviour) (st : BridgeState) (ev : WalletEvent) :
    WalletEvent × List (CbId × WalletEvent) × BridgeState :=
  let (ds, live) := dispatchList beh ev st.callbacks st.callbacks
  (ev, ds, { st with callbacks := live })

/-- Mirror of `private static buildConnectError(id, msg = 'Unknown
error', code?)`; `code || UNKNOWN_ERROR` coincides with `Option.getD`
because `UNKNOWN_ERROR` is the falsy member of the enum. -/
def buildConnectError (id : Nat) (msg : Option String)
    (code : Option ConnectErrorCode) : WalletEvent :=
  .connectError id (code.getD .UNKNOWN_ERROR) (msg.getD "Unknown error")

/-- Shared tail of `connect` and `restoreConnection`: decorate a
successful connect response with a fresh device descriptor and register
the unload listener, fall back to a generic connect error when the
transport yielded no response, then emit. -/
def finishConnect (env : Env) (beh : Behaviour) (st : BridgeState) (id : Nat)
    (call : RequestCall) (response : Option WalletEvent) : OpResult WalletEvent :=
  let (response2, st2) :=
    match response with
    | some (.connect rid payload) =>
      (some (WalletEvent.connect rid { payload with device := getDeviceInfo env }),
        { st with hasUnloadListener := true })
    | other => (other, st)
  let ev := response2.getD (buildConnectError id none none)
  let (ev2, ds, st3) := emit beh st2 ev
  { result := .ok ev2, deliveries := ds, calls := [call], state := st3 }

/-- Mirror of `async connect(protocolVersion, message)`. -/
def connect (env : Env) (beh : Behaviour) (st : BridgeState)
    (protocolVersion : Nat) (message : ConnectRequest)
    (transport : TransportResult WalletEvent) : OpResult WalletEvent :=
  let id := st.lastGeneratedId + 1
  let st1 := { st with lastGeneratedId := id }
  if st.protocolVersion < protocolVersion then
    { result := .ok (buildConnectError id (some "Unsupported protocol version")
        (some .BAD_REQUEST_ERROR))
      deliveries := []
      calls := []
      state := st1 }
  else
    match transport with
    | .reject reason =>
      { result := .error reason
        deliveries := []
        calls := [.connect message id]
        state := st1 }
    | .resolve response => finishConnect env beh st1 id (.connect message id) response

/-- Mirror of `async restoreConnection()`. -/
def restoreConnection (env : Env) (beh : Behaviour) (st : BridgeState)
    (transport : TransportResult WalletEvent) : OpResult WalletEvent :=
  let id := st.lastGeneratedId + 1
  let st1 := { st with lastGeneratedId := id }
  match transport with
  | .reject reason =>
    { result := .error reason
      deliveries := []
      calls := [.reconnect id]
      state := st1 }
  | .resolve response => finishConnect env beh st1 id (.reconnect id) response

/-- Mirror of `async send(message)`. -/
def send (st : BridgeState) (message : AppMethodMessage)
    (transport : TransportResult WalletResponse) : OpResult WalletResponse :=
  match transport with
  | .reject reason =>
    { result := .error reason
      deliveries := []
      calls := [.app message]
      state := st }
  | .resolve response =>
    let st2 :=
      if message.method = "disconnect" then { st with hasUnloadListener := false } else st
    { result := .ok (response.getD (.error message.id 0 "Unknown error"))
      deliveries := []
      calls := [.app message]
      state := st2 }

/-- Mirror of `listen(callback)`'s registration effect. -/
def listen (st : BridgeState) (c : CbId) : BridgeState :=
  { st with callbacks := st.callbacks ++ [c] }

/-- Mirror of invoking the unsubscribe closure returned by
`listen(callback)`: filters out every entry equal to the captured
callback reference. -/
def unsubscribe (st : BridgeState) (c : CbId) : BridgeState :=
  { st with callbacks := st.callbacks.filter (fun cb => cb ≠ c) }

/-- Mirror of `onDisconnect()`. -/
def onDisconnect (beh : Behaviour) (st : BridgeState) : OpResult WalletEvent :=
  let id := st.lastGeneratedId + 1
  let st1 := { st with lastGeneratedId := id }
  let (ev, ds, st2) := emit beh st1 (.disconnect id)
  { result := .ok ev
    deliveries := ds
    calls := []
    state := { st2 with hasUnloadListener := false } }

/-- One top-level operation on a bridge instance, with the transport
behaviour its single request (if any) will observe. -/
inductive BridgeOp
  | connectOp (protocolVersion : Nat) (message : ConnectRequest)
      (transport : TransportResult WalletEvent)
  | restoreOp (transport : TransportResult WalletEvent)
  | disconnectOp
  | sendOp (message : AppMethodMessage) (transport : TransportResult WalletResponse)
  | listenOp (c : CbId)
  | unsubscribeOp (c : CbId)

/-- Run one operation; the second component is the list of request ids
the operation allocated, read off from the counter after the run
(the value `++this.lastGeneratedId` produced). -/
def runOp (env : Env) (beh : Behaviour) (st : BridgeState) :
    BridgeOp → BridgeState × List Nat
  | .connectOp pv m t =>
    let r := connect env beh st pv m t
    (r.state, [r.state.lastGeneratedId])
  | .restoreOp t =>
    let r := restoreConnection env beh st t
    (r.state, [r.state.lastGeneratedId])
  | .disconnectOp =>
    let r := onDisconnect beh st
    (r.state, [r.state.lastGeneratedId])
  | .sendOp m t => ((send st m t).state, [])
  | .listenOp c => (listen st c, [])
  | .unsubscribeOp c => (unsubscribe st c, [])

/-- Run a sequence of operations, concatenating the allocated ids in
order of allocation. -/
def runOps (env : Env) (beh : Behaviour) :
    BridgeState → List BridgeOp → BridgeState × List Nat
  | st, [] => (st, [])
  | st, op :: ops =>
    let p := runOp env beh st op
    let q := runOps env beh p.1 ops
    (q.1, p.2 ++ q.2)

/-! ### Fixture values for concrete scenarios -/

/-- A concrete browser environment (macOS). -/
def envA : Env :=
  { userAgent := "Mozilla/5.0", navPlatform := "MacIntel", appVersion := "3.0.0" }

/-- Listener behaviour that performs no registry action. -/
def behNil : Behaviour := fun _ _ => []

/-- A concrete connection request. -/
def msgA : ConnectRequest :=
  { manifestUrl := "https://example.com/tonconnect-manifest.json", items := ["ton_addr"] }

/-- A transport-supplied device descriptor, distinct from the bridge's
fresh one, to exhibit the overwrite. -/
def staleDevice : DeviceInfo :=
  { platform := none, appName := "other-wallet", appVersion := "0.0.1"
    maxProtocolVersion := 1, features := [] }

/-- A concrete transport-supplied connect payload carrying `staleDevice`. -/
def payloadA : ConnectPayload := { items := ["ton_addr-reply"], device := staleDevice }

/-- Behaviour used to illustrate unsubscription during dispatch:
callback `1` invokes the unsubscribe closure of callback `2`. -/
def behUnsub : Behaviour := fun c _ => if c = 1 then [.unsubscribe 2] else []

/-! ### Helper lemmas -/

theorem dispatchList_fst (beh : Behaviour) (ev : WalletEvent) :
    ∀ (captured live : List CbId),
      (dispatchList beh ev captured live).1 = captured.map (fun c => (c, ev))
  | [], _ => rfl
  | c :: rest, live => by
    simp only [dispatchList, List.map_cons]
    exact congrArg _ (dispatchList_fst beh ev rest _)

theorem emit_fst (beh : Behaviour) (st : BridgeState) (ev : WalletEvent) :
    (emit beh st ev).1 = ev := rfl

theorem emit_deliveries (beh : Behaviour) (st : BridgeState) (ev : WalletEvent) :
    (emit beh st ev).2.1 = st.callbacks.map (fun c => (c, ev)) :=
  dispatchList_fst beh ev st.callbacks st.callbacks

theorem emit_state_lgid (beh : Behaviour) (st : BridgeState) (ev : WalletEvent) :
    (emit beh st ev).2.2.lastGeneratedId = st.lastGeneratedId := rfl

theorem finishConnect_lgid (env : Env) (beh : Behaviour) (st : BridgeState)
    (id : Nat) (call : RequestCall) :
    ∀ resp, (finishConnect env beh st id call resp).state.lastGeneratedId
      = st.lastGeneratedId
  | none => rfl
  | some (.connect _ _) => rfl
  | some (.connectError _ _ _) => rfl
  | some (.disconnect _) => rfl

theorem finishConnect_spec (env : Env) (beh : Behaviour) (st : BridgeState)
    (id : Nat) (call : RequestCall) :
    ∀ resp, ∃ ev, (finishConnect env beh st id call resp).result = .ok ev
      ∧ (finishConnect env beh st id call resp).deliveries
          = st.callbacks.map (fun c => (c, ev))
  | none =>
    ⟨buildConnectError id none none, rfl,
      emit_deliveries beh st (buildConnectError id none none)⟩
  | some (.connect rid payload) =>
    ⟨.connect rid { payload with device := getDeviceInfo env }, rfl,
      emit_deliveries beh { st with hasUnloadListener := true } _⟩
  | some (.connectError rid code msg) =>
    ⟨.connectError rid code msg, rfl, emit_deliveries beh st _⟩
  | some (.disconnect rid) =>
    ⟨.disconnect rid, rfl, emit_deliveries beh st _⟩

theorem connect_lgid (env : Env) (beh : Behaviour) (st : BridgeState)
    (pv : Nat) (m : ConnectRequest) (t : TransportResult WalletEvent) :
    (connect env beh st pv m t).state.lastGeneratedId = st.lastGeneratedId + 1 := by
  unfold connect
  split
  · rfl
  · cases t with
    | reject reason => rfl
    | resolve resp =>
      exact finishConnect_lgid env beh _ _ _ resp

theorem restoreConnection_lgid (env : Env) (beh : Behaviour) (st : BridgeState)
    (t : TransportResult WalletEvent) :
    (restoreConnection env beh st t).state.lastGeneratedId = st.lastGeneratedId + 1 := by
  unfold restoreConnection
  cases t with
  | reject reason => rfl
  | resolve resp => exact finishConnect_lgid env beh _ _ _ resp

theorem onDisconnect_lgid (beh : Behaviour) (st : BridgeState) :
    (onDisconnect beh st).state.lastGeneratedId = st.lastGeneratedId + 1 := rfl

theorem send_lgid (st : BridgeState) (m : AppMethodMessage)
    (t : TransportResult WalletResponse) :
    (send st m t).state.lastGeneratedId = st.lastGeneratedId := by
  cases t with
  | reject reason => rfl
  | resolve resp =>
    simp only [send]
    split <;> rfl

/-- Per-operation bound: the counter never decreases, and every id the
operation allocated lies strictly above the old counter and at most at
the new counter. -/
theorem runOp_bounds (env : Env) (beh : Behaviour) (st : BridgeState) (op : BridgeOp) :
    st.lastGeneratedId ≤ (runOp env beh st op).1.lastGeneratedId
      ∧ ∀ i ∈ (runOp env beh st op).2,
          st.lastGeneratedId < i ∧ i ≤ (runOp env beh st op).1.lastGeneratedId := by
  cases op with
  | connectOp pv m t =>
    simp only [runOp, connect_lgid, List.mem_singleton]
    exact ⟨Nat.le_succ _, fun i hi => by subst hi; omega⟩
  | restoreOp t =>
    simp only [runOp, restoreConnection_lgid, List.mem_singleton]
    exact ⟨Nat.le_succ _, fun i hi => by subst hi; omega⟩
  | disconnectOp =>
    simp only [runOp, onDisconnect_lgid, List.mem_singleton]
    exact ⟨Nat.le_succ _, fun i hi => by subst hi; omega⟩
  | sendOp m t =>
    simp only [runOp, send_lgid]
    exact ⟨le_refl _, fun i hi => absurd hi (List.not_mem_nil i)⟩
  | listenOp c =>
    exact ⟨le_refl _, fun i hi => absurd hi (List.not_mem_nil i)⟩
  | unsubscribeOp c =>
    exact ⟨le_refl _, fun i hi => absurd hi (List.not_mem_nil i)⟩

/-- Trace bound: over a sequence of operations, the counter never
decreases, every allocated id lies strictly above the starting counter
and at most at the final counter, and the allocated ids are strictly
increasing along the trace. -/
theorem runOps_bounds (env : Env) (beh : Behaviour) :
    ∀ (ops : List BridgeOp) (st : BridgeState),
      st.lastGeneratedId ≤ (runOps env beh st ops).1.lastGeneratedId
        ∧ (∀ i ∈ (runOps env beh st ops).2,
            st.lastGeneratedId < i ∧ i ≤ (runOps env beh st ops).1.lastGeneratedId)
        ∧ ((runOps env beh st ops).2).Pairwise (· < ·)
  | [], st => ⟨le_refl _, fun i hi => absurd hi (List.not_mem_nil i), List.Pairwise.nil⟩
  | op :: ops, st => by
    obtain ⟨hle₁, hmem₁⟩ := runOp_bounds env beh st op
    obtain ⟨hle₂, hmem₂, hpw₂⟩ := runOps_bounds env beh ops (runOp env beh st op).1
    have hpw₁ : ((runOp env beh st op).2).Pairwise (· < ·) := by
      cases op <;> simp [runOp]
    refine ⟨le_trans hle₁ hle₂, ?_, ?_⟩
    · intro i hi
      simp only [runOps, List.mem_append] at hi
      rcases hi with hi | hi
      · exact ⟨(hmem₁ i hi).1, le_trans (hmem₁ i hi).2 hle₂⟩
      · exact ⟨lt_of_le_of_lt hle₁ (hmem₂ i hi).1, (hmem₂ i hi).2⟩
    · simp only [runOps]
      refine List.pairwise_append.mpr ⟨hpw₁, hpw₂, ?_⟩
      intro i hi j hj
      exact lt_of_le_of_lt (hmem₁ i hi).2 (hmem₂ j hj).1

theorem onDisconnect_result (beh : Behaviour) (st : BridgeState) :
    (onDisconnect beh st).result = .ok (.disconnect (st.lastGeneratedId + 1)) := rfl

theorem connect_version_reject (env : Env) (beh : Behaviour) (st : BridgeState)
    (pv : Nat) (m : ConnectRequest) (t : TransportResult WalletEvent)
    (h : st.protocolVersion < pv) :
    connect env beh st pv m t =
      { result := .ok (buildConnectError (st.lastGeneratedId + 1)
          (some "Unsupported protocol version") (some .BAD_REQUEST_ERROR))
        deliveries := []
        calls := []
        state := { st with lastGeneratedId := st.lastGeneratedId + 1 } } := by
  simp only [connect, if_pos h]

/-! ### Claim theorems -/

/-- Claim C1, counterexample: the claim says a transport rejection never
propagates past the bridge boundary, but `connect`, `restoreConnection`
and `send` all `await` the transport promise with no `try`/`catch`, so a
rejecting transport makes each returned promise reject with the same
reason instead of resolving with a structured payload. -/
theorem transport_rejection_propagates :
    (connect envA behNil initState 2 msgA (.reject "transport failure")).result
        = .error "transport failure"
      ∧ (restoreConnection envA behNil initState (.reject "transport failure")).result
          = .error "transport failure"
      ∧ (send initState ⟨"getBalance", 5⟩ (.reject "transport failure")).result
          = .error "transport failure" :=
  ⟨rfl, rfl, rfl⟩

/-- Claim C1, amended: for every transport behaviour that resolves
(including resolving with no response), each public operation's promise
resolves with a structured success or error payload; only a rejecting
transport promise escapes the bridge boundary. -/
theorem resolved_transport_gives_structured_result (env : Env) (beh : Behaviour)
    (st : BridgeState) (pv : Nat) (m : ConnectRequest) (am : AppMethodMessage)
    (resp : Option WalletEvent) (wresp : Option WalletResponse) :
    (∃ v, (connect env beh st pv m (.resolve resp)).result = .ok v)
      ∧ (∃ v, (restoreConnection env beh st (.resolve resp)).result = .ok v)
      ∧ (∃ v, (send st am (.resolve wresp)).result = .ok v) := by
  refine ⟨?_, ?_, ?_⟩
  · simp only [connect]
    split
    · exact ⟨_, rfl⟩
    · obtain ⟨ev, hev, -⟩ := finishConnect_spec env beh _ _ _ resp
      exact ⟨ev, hev⟩
  · obtain ⟨ev, hev, -⟩ := finishConnect_spec env beh _ _ _ resp
    exact ⟨ev, hev⟩
  · simp only [send]
    exact ⟨_, rfl⟩

/-- Claim C2, counterexample: the claim says every outcome of `connect`,
including the local protocol-version validation failure, is delivered to
all registered listeners and returned; but the version-mismatch branch
`return`s the error event directly without going through `emit`, so a
registered listener observes nothing although the call resolved with an
event. -/
theorem validation_failure_not_emitted :
    (connect envA behNil { initState with callbacks := [7] } 3 msgA
        (.resolve none)).result
        = .ok (.connectError 1 .BAD_REQUEST_ERROR "Unsupported protocol version")
      ∧ (connect envA behNil { initState with callbacks := [7] } 3 msgA
          (.resolve none)).deliveries = []
      ∧ ({ initState with callbacks := [7] } : BridgeState).callbacks ≠ [] :=
  ⟨rfl, rfl, List.cons_ne_nil 7 []⟩

/-- Claim C2, amended: for `connect` with an accepted protocol version
and for `restoreConnection`, whenever the transport resolves
(successful connect response or no response), exactly one event is both
delivered to every currently-registered listener (once each, in
registration order) and returned as the resolved value; on a local
protocol-version validation failure the error event is only returned —
it is delivered to no listener. -/
theorem connect_emits_on_resolved_transport (env : Env) (beh : Behaviour)
    (st : BridgeState) (pv : Nat) (m : ConnectRequest) (resp : Option WalletEvent) :
    (pv ≤ st.protocolVersion →
        ∃ ev, (connect env beh st pv m (.resolve resp)).result = .ok ev
          ∧ (connect env beh st pv m (.resolve resp)).deliveries
              = st.callbacks.map (fun c => (c, ev)))
      ∧ (∃ ev, (restoreConnection env beh st (.resolve resp)).result = .ok ev
          ∧ (restoreConnection env beh st (.resolve resp)).deliveries
              = st.callbacks.map (fun c => (c, ev)))
      ∧ (st.protocolVersion < pv →
          ∃ ev, (connect env beh st pv m (.resolve resp)).result = .ok ev
            ∧ (connect env beh st pv m (.resolve resp)).deliveries = []) := by
  refine ⟨?_, ?_, ?_⟩
  · intro h
    have hn : ¬ st.protocolVersion < pv := not_lt.mpr h
    simp only [connect, if_neg hn]
    exact finishConnect_spec env beh _ _ _ resp
  · exact finishConnect_spec env beh _ _ _ resp
  · intro h
    rw [connect_version_reject env beh st pv m _ h]
    exact ⟨_, rfl, rfl⟩

/-- Witness for the amended claim C2 at a concrete input: two registered
listeners, an accepted version, and a transport resolving with no
response. -/
theorem connect_emits_on_resolved_transport_witness :
    (2 ≤ ({ initState with callbacks := [3, 4] } : BridgeState).protocolVersion)
      ∧ ∃ ev, (connect envA behNil { initState with callbacks := [3, 4] } 2 msgA
            (.resolve none)).result = .ok ev
          ∧ (connect envA behNil { initState with callbacks := [3, 4] } 2 msgA
              (.resolve none)).deliveries
              = ({ initState with callbacks := [3, 4] } : BridgeState).callbacks.map
                  (fun c => (c, ev)) :=
  ⟨by decide,
    (connect_emits_on_resolved_transport envA behNil
      { initState with callbacks := [3, 4] } 2 msgA none).1 (by decide)⟩

/-- Claim C3: when the requested protocol version exceeds the bridge's
supported version, `connect` issues no transport call and resolves with
a connect-error event with the bad-request code and message
"Unsupported protocol version"; on a fresh instance `connect(3, ...)`
resolves with that event under id 1. -/
theorem connect_unsupported_version (env : Env) (beh : Behaviour)
    (st : BridgeState) (pv : Nat) (m : ConnectRequest)
    (t : TransportResult WalletEvent) (h : st.protocolVersion < pv) :
    ((connect env beh st pv m t).result
        = .ok (.connectError (st.lastGeneratedId + 1) .BAD_REQUEST_ERROR
            "Unsupported protocol version")
      ∧ (connect env beh st pv m t).calls = [])
      ∧ ∀ t2 : TransportResult WalletEvent,
          (connect env beh initState 3 m t2).result
              = .ok (.connectError 1 .BAD_REQUEST_ERROR "Unsupported protocol version")
            ∧ (connect env beh initState 3 m t2).calls = [] := by
  refine ⟨⟨?_, ?_⟩, fun t2 => ⟨rfl, rfl⟩⟩ <;>
    (rw [connect_version_reject env beh st pv m t h]; try rfl)

/-- Witness for claim C3: a fresh bridge rejects `connect(3, ...)`
locally with the bad-request error under id 1. -/
theorem connect_unsupported_version_witness :
    (initState : BridgeState).protocolVersion < 3
      ∧ (connect envA behNil initState 3 msgA (.resolve none)).result
          = .ok (.connectError 1 .BAD_REQUEST_ERROR "Unsupported protocol version")
      ∧ (connect envA behNil initState 3 msgA (.resolve none)).calls = [] :=
  ⟨by decide,
    (connect_unsupported_version envA behNil initState 3 msgA (.resolve none)
      (by decide)).1⟩

/-- Claim C4: across every sequence of bridge operations, the request
ids allocated by `connect`, `restoreConnection` and `onDisconnect` form
a strictly increasing trace, hence no id is ever reused within one
bridge instance. -/
theorem request_ids_strictly_increasing (env : Env) (beh : Behaviour)
    (st : BridgeState) (ops : List BridgeOp) :
    ((runOps env beh st ops).2).Pairwise (· < ·)
      ∧ ((runOps env beh st ops).2).Nodup := by
  have h := (runOps_bounds env beh ops st).2.2
  exact ⟨h, h.imp Nat.ne_of_lt⟩

/-- Claim C5: whenever the transport answers a `connect` (accepted
version) or `restoreConnection` call with a connect-success event, the
resolved event's payload carries the freshly computed device descriptor
(platform from the navigator, appName "MyTonWallet", the package
version, maxProtocolVersion 2, the features list), overwriting whatever
device field the transport supplied. -/
theorem connect_overwrites_device (env : Env) (beh : Behaviour) (st : BridgeState)
    (pv : Nat) (m : ConnectRequest) (rid : Nat) (payload : ConnectPayload)
    (h : pv ≤ st.protocolVersion) :
    (connect env beh st pv m (.resolve (some (.connect rid payload)))).result
        = .ok (.connect rid { payload with device := getDeviceInfo env })
      ∧ (restoreConnection env beh st (.resolve (some (.connect rid payload)))).result
          = .ok (.connect rid { payload with device := getDeviceInfo env })
      ∧ (getDeviceInfo env).appName = "MyTonWallet"
      ∧ (getDeviceInfo env).maxProtocolVersion = 2
      ∧ (getDeviceInfo env).appVersion = env.appVersion
      ∧ (getDeviceInfo env).platform = getPlatform env.userAgent env.navPlatform
      ∧ (getDeviceInfo env).features = [.legacySendTransaction, .sendTransaction 4] := by
  have hn : ¬ st.protocolVersion < pv := not_lt.mpr h
  refine ⟨?_, rfl, rfl, rfl, rfl, rfl, rfl⟩
  simp only [connect, if_neg hn]
  rfl

/-- Witness for claim C5: a concrete transport response whose stale
device descriptor is replaced by the fresh one. -/
theorem connect_overwrites_device_witness :
    (2 ≤ (initState : BridgeState).protocolVersion)
      ∧ (connect envA behNil initState 2 msgA
            (.resolve (some (.connect 1 payloadA)))).result
          = .ok (.connect 1 { payloadA with device := getDeviceInfo envA }) :=
  ⟨by decide,
    (connect_overwrites_device envA behNil initState 2 msgA 1 payloadA (by decide)).1⟩

/-- Claim C6: `emit` delivers the event to every listener captured at
dispatch start, in registration order, whatever registry actions the
callbacks perform during dispatch; concretely, with listeners
`[1, 2, 3]` where callback 1 unsubscribes callback 2, all three still
receive the in-flight event, and only the next dispatch omits 2. -/
theorem emit_delivers_to_captured (beh : Behaviour) (st : BridgeState)
    (ev ev2 : WalletEvent) :
    (emit beh st ev).2.1 = st.callbacks.map (fun c => (c, ev))
      ∧ (emit behUnsub { initState with callbacks := [1, 2, 3] } ev).2.1
          = [(1, ev), (2, ev), (3, ev)]
      ∧ (emit behUnsub
            (emit behUnsub { initState with callbacks := [1, 2, 3] } ev).2.2 ev2).2.1
          = [(1, ev2), (3, ev2)] :=
  ⟨emit_deliveries beh st ev, rfl, rfl⟩

/-- Claim C7: when the transport yields no response to `send`, the call
resolves with the synthesized `{ error: { code: 0, message: "Unknown
error" }, id }` response carrying the original message's id; in
particular for `{ method: "getBalance", id: 5 }`. -/
theorem send_no_response_error (st : BridgeState) (m : AppMethodMessage) :
    (send st m (.resolve none)).result = .ok (.error m.id 0 "Unknown error")
      ∧ (send initState { method := "getBalance", id := 5 } (.resolve none)).result
          = .ok (.error 5 0 "Unknown error") :=
  ⟨rfl, rfl⟩

/-- Claim C8: for every message whose method is "disconnect", once the
transport call resolves — with a success response, an error response, or
no response — `send` leaves the page-unload listener unregistered. -/
theorem send_disconnect_removes_unload_listener (st : BridgeState)
    (m : AppMethodMessage) (resp : Option WalletResponse)
    (h : m.method = "disconnect") :
    (send st m (.resolve resp)).state.hasUnloadListener = false := by
  simp [send, h]

/-- Witness for claim C8: `send({ method: "disconnect", id: 7 })` with
the unload listener registered and a transport yielding no response. -/
theorem send_disconnect_removes_unload_listener_witness :
    ((⟨"disconnect", 7⟩ : AppMethodMessage).method = "disconnect")
      ∧ (send { initState with hasUnloadListener := true } ⟨"disconnect", 7⟩
          (.resolve none)).state.hasUnloadListener = false :=
  ⟨rfl, send_disconnect_removes_unload_listener
      { initState with hasUnloadListener := true } ⟨"disconnect", 7⟩ none rfl⟩

/-- Claim C9: registering the same callback reference twice and then
invoking the unsubscribe closure once (both `listen` calls return the
same filter over the captured reference) removes both registrations at
once, and a subsequent dispatch delivers zero events to that callback. -/
theorem duplicate_listen_unsubscribe (st : BridgeState) (c : CbId)
    (beh : Behaviour) (ev : WalletEvent) :
    ((unsubscribe (listen (listen st c) c) c).callbacks.count c = 0)
      ∧ ((emit beh (unsubscribe (listen (listen st c) c) c) ev).2.1.countP
          (fun d => d.1 == c)) = 0 := by
  have hmem : ∀ x ∈ (unsubscribe (listen (listen st c) c) c).callbacks, x ≠ c := by
    intro x hx
    simp only [unsubscribe, listen, List.mem_filter, decide_eq_true_eq] at hx
    exact hx.2
  constructor
  · exact List.count_eq_zero.mpr (fun h => hmem c h rfl)
  · rw [emit_deliveries, List.countP_map]
    refine List.countP_eq_zero.mpr ?_
    intro x hx
    simpa using hmem x hx

/-- Claim C10: `send` never modifies the request-id counter — for every
message and transport outcome (response, no response, or rejection) the
counter is unchanged, so the id allocated by the next `connect`,
`restoreConnection` or `onDisconnect` is the same as with no
intervening `send`. -/
theorem send_preserves_id_counter (st : BridgeState) (m : AppMethodMessage)
    (t : TransportResult WalletResponse) (env : Env) (beh : Behaviour)
    (pv : Nat) (cm : ConnectRequest) (t2 : TransportResult WalletEvent) :
    (send st m t).state.lastGeneratedId = st.lastGeneratedId
      ∧ (connect env beh (send st m t).state pv cm t2).state.lastGeneratedId
          = st.lastGeneratedId + 1
      ∧ (restoreConnection env beh (send st m t).state t2).state.lastGeneratedId
          = st.lastGeneratedId + 1
      ∧ (onDisconnect beh (send st m t).state).result
          = .ok (.disconnect (st.lastGeneratedId + 1)) := by
  have h := send_lgid st m t
  refine ⟨h, ?_, ?_, ?_⟩
  · rw [connect_lgid, h]
  · rw [restoreConnection_lgid, h]
  · rw [onDisconnect_result, h]

end TonConnectBridge
